import Mathlib

/-!
Verification of the session-assembly logic of `tonic/hydra/train.py`.

The script's `main` reads a `TonicTrainConfig`, resolves a checkpoint path,
merges the current configuration with a persisted one when resuming, and then
builds and wires the environment, test environment, agent, logger and trainer
before running the trainer.  The embedding below mirrors the script line by
line: every externally observable action (log line, filesystem access,
construction or initialization call, snippet execution, the trainer run) is
recorded as an `Event`, Python exceptions are modelled with `Except PyError`,
and the filesystem the script would see is an explicit `FileSystem` value.
-/

/-- Python values as far as this script inspects them: the script only tests
values for `is not None` and for truthiness, and passes descriptors through
opaquely to `hydra.utils.instantiate`, so a descriptor's payload is modelled
opaquely (a dictionary is kept as its key list). -/
inductive PyVal where
  | none
  | str (s : String)
  | int (n : Int)
  | dict (keys : List String)
deriving Repr, DecidableEq

/-- Python truthiness for the values above: `None`, `""`, `0` and `{}` are
falsy, everything else is truthy. -/
def PyVal.truthy : PyVal → Bool
  | .none => false
  | .str s => s != ""
  | .int n => n != 0
  | .dict ks => !ks.isEmpty

/-- Truthiness of an `Optional[str]` field: `None` and `""` are falsy. -/
def optTruthy : Option String → Bool
  | Option.none => false
  | some s => s != ""

/-- Python `a or b` on opaque values. -/
def pyOr (a b : PyVal) : PyVal := if a.truthy then a else b

/-- Python `a or b` on optional strings. -/
def optOr (a b : Option String) : Option String := if optTruthy a then a else b

/-- The `checkpoint` field of `TonicTrainConfig`: the literal `'last'`,
`'first'` or `'none'`, or an integer step id. -/
inductive Checkpoint where
  | last
  | first
  | none
  | id (n : Int)
deriving Repr, DecidableEq

/-- The fields of the `TonicTrainConfig` dataclass, i.e. the twelve local
variables read from `cfg` at the top of `main` (train.py lines 33-44). -/
structure TonicTrainConfig where
  header : Option String
  agent : PyVal
  environment : PyVal
  test_environment : PyVal
  trainer : PyVal
  before_training : Option String
  after_training : Option String
  parallel : Int
  sequential : Int
  seed : Int
  checkpoint : Checkpoint
  checkpoint_output_dir : Option String
deriving Repr, DecidableEq

/-- The mapping persisted at `<checkpoint_output_dir>/config.yaml`, as far as
`main` reads it (train.py lines 96-103): the five merged fields. -/
structure PersistedConfig where
  header : Option String
  agent : PyVal
  environment : PyVal
  test_environment : PyVal
  trainer : PyVal
deriving Repr, DecidableEq

/-- The filesystem as seen by one run: whether
`<checkpoint_output_dir>/checkpoints` exists as a directory, its entries, the
entries of the process working directory (listed by `os.listdir(None)`), and
the parsed content of `<checkpoint_output_dir>/config.yaml` when that file
exists. -/
structure FileSystem where
  checkpointsDirExists : Bool
  checkpointsEntries : List String
  cwdEntries : List String
  configYaml : Option PersistedConfig
deriving Repr, DecidableEq

/-- Python exceptions that `main` can raise. -/
inductive PyError where
  /-- `ValueError` from `int()` on a non-numeric string (train.py line 70). -/
  | valueError (s : String)
  /-- `TypeError` from `os.path.join(None, ...)` (train.py lines 76/80/85). -/
  | typeError
  /-- `FileNotFoundError` from `open()` on a missing file (train.py line 95). -/
  | fileNotFound (path : String)
deriving Repr, DecidableEq

/-- The heterogeneous values stored in the captured argument mapping
`args = dict(locals())` (train.py line 47). -/
inductive ArgVal where
  | ostr (s : Option String)
  | py (v : PyVal)
  | int (n : Int)
  | sel (c : Checkpoint)
deriving Repr, DecidableEq

/-- Externally observable actions of `main`, in the order they happen. -/
inductive Event where
  /-- `tonic.logger.log(f'Loading experiment from {dir}')` (line 54). -/
  | logLoadingExperiment (dir : String)
  /-- `tonic.logger.log('Not loading any weights')` (line 58). -/
  | logNotLoadingWeights
  /-- `tonic.logger.error(f'{path} is not a directory')` (line 62). -/
  | logErrorNotADirectory (path : String)
  /-- `tonic.logger.error(f'No checkpoint found in {path}')` (line 90). -/
  | logErrorNoCheckpointFound (path : Option String)
  /-- `tonic.logger.error(f'Checkpoint {id} not found in {path}')` (line 87). -/
  | logErrorCheckpointNotFound (id : Int) (path : Option String)
  /-- `os.path.isdir(path)` (line 61). -/
  | fsIsDir (path : String)
  /-- `os.listdir(path)` (line 67); `path = None` lists the working directory. -/
  | fsListDir (path : Option String)
  /-- `open(<checkpoint_output_dir>/config.yaml)` (line 95). -/
  | fsOpenConfig (path : String)
  /-- `exec(code)` of the named snippet (lines 107, 147, 154). -/
  | execSnippet (which : String) (code : String)
  /-- `tonic.environments.distribute(..., parallel, sequential)` (line 111). -/
  | envBuild (descriptor : PyVal) (parallel sequential : Int)
  /-- `environment.initialize(seed=seed)` (line 113). -/
  | envInit (seed : Int)
  /-- `tonic.environments.distribute(...)` for the test env (line 117). -/
  | testEnvBuild (descriptor : PyVal) (parallel sequential : Int)
  /-- `test_environment.initialize(seed=seed + 10000)` (line 119). -/
  | testEnvInit (seed : Int)
  /-- `hydra.utils.instantiate(agent)` (line 122). -/
  | agentBuild (descriptor : PyVal)
  /-- `agent.initialize(observation_space=..., action_space=..., seed=seed)`
  (line 123); the spaces come from the training environment. -/
  | agentInit (seed : Int)
  /-- `agent.load(checkpoint_path)` (line 131). -/
  | agentLoad (path : String)
  /-- `tonic.logger.initialize(output_dir, script_path=__file__, config=args)`
  (line 135). -/
  | loggerInit (outputDir : String) (scriptPath : String)
      (args : List (String × ArgVal))
  /-- `hydra.utils.instantiate(trainer)` (line 138). -/
  | trainerBuild (descriptor : PyVal)
  /-- `trainer.initialize(agent=..., environment=..., test_environment=...)`
  (line 139). -/
  | trainerInit
  /-- `trainer.run()` (line 150). -/
  | trainerRun
deriving Repr, DecidableEq

/- ------------------------------------------------------------------ -/
/- String helpers, written structurally on `String.data` so that they
   reduce inside the kernel.                                           -/
/- ------------------------------------------------------------------ -/

/-- Python slice `s[:n]`. -/
def strTake (s : String) (n : Nat) : String := ⟨s.data.take n⟩

/-- Python slice `s[n:]`. -/
def strDrop (s : String) (n : Nat) : String := ⟨s.data.drop n⟩

/-- Python `s.split('.')[0]`: the segment before the first `'.'`. -/
def beforeDot (s : String) : String := ⟨s.data.takeWhile (fun c => c ≠ '.')⟩

/-- Strip leading and trailing whitespace, as Python `int()` does before
parsing. -/
def strTrim (s : String) : String :=
  ⟨((s.data.dropWhile Char.isWhitespace).reverse.dropWhile Char.isWhitespace).reverse⟩

/-- Decimal value of a digit run. -/
def digitsToNat (l : List Char) : Nat :=
  l.foldl (fun a c => a * 10 + (c.toNat - 48)) 0

/-- Python `int(s)` on a string: optional surrounding whitespace, an optional
sign, then a non-empty run of decimal digits; anything else raises
`ValueError`, modelled as `Option.none`.  (Python additionally allows
underscore digit grouping, not modelled here.) -/
def pyIntParse (s : String) : Option Int :=
  let t := (strTrim s).data
  let signed : Bool × List Char :=
    match t with
    | '-' :: rest => (true, rest)
    | '+' :: rest => (false, rest)
    | l => (false, l)
  if !signed.2.isEmpty && signed.2.all Char.isDigit then
    let n : Int := Int.ofNat (digitsToNat signed.2)
    some (if signed.1 then -n else n)
  else Option.none

/-- Digit character for a value below 10. -/
def digitChar (n : Nat) : Char := Char.ofNat (48 + n)

/-- Decimal digits of `n`, fuel-driven so the recursion is structural. -/
def natDigits : Nat → Nat → List Char
  | 0, _ => []
  | fuel + 1, n => if n < 10 then [digitChar n] else natDigits fuel (n / 10) ++ [digitChar (n % 10)]

/-- Python `str(i)` for an integer, as used by `f'step_{checkpoint_id}'`. -/
def intToStr : Int → String
  | .ofNat n => ⟨natDigits (n + 1) n⟩
  | .negSucc n => ⟨'-' :: natDigits (n + 2) (n + 1)⟩

/-- The checkpoint artifact name `f'step_{id}'`. -/
def stepName (n : Int) : String := "step_" ++ intToStr n

/-- `os.path.join(a, b)` for a relative second component. -/
def osPathJoin (a b : String) : String :=
  if a.data.getLast? = some '/' then a ++ b else a ++ "/" ++ b

/-- Python `max` on a list (`max` of a non-empty list in the script; the `[]`
case is arbitrary and unreachable there). -/
def pyMax : List Int → Int
  | [] => 0
  | x :: xs => xs.foldl max x

/-- Python `min` on a list (same remark as `pyMax`). -/
def pyMin : List Int → Int
  | [] => 0
  | x :: xs => xs.foldl min x

/- ------------------------------------------------------------------ -/
/- The embedding of `main` (train.py lines 30-154).                    -/
/- ------------------------------------------------------------------ -/

/-- Whether a directory entry qualifies for the scan:
`file[:5] == 'step_'` (train.py line 68). -/
def isStepEntry (file : String) : Bool := strTake file 5 == "step_"

/-- The id parsed from a qualifying entry:
`int(file.split('.')[0][5:])` (train.py lines 69-70); `Option.none` when
`int()` would raise `ValueError`. -/
def stepEntryId (file : String) : Option Int := pyIntParse (strDrop (beforeDot file) 5)

/-- The scan loop of train.py lines 66-70: walk the listed entries in order
and collect the ids of `step_`-prefixed entries; a `step_`-prefixed entry
whose id segment does not parse as an integer raises `ValueError` at that
point. -/
def pyListCheckpointIds : List String → Except PyError (List Int)
  | [] => .ok []
  | file :: rest =>
    if isStepEntry file then
      match stepEntryId file with
      | some n =>
        match pyListCheckpointIds rest with
        | .ok ids => .ok (n :: ids)
        | .error e => .error e
      | Option.none => .error (.valueError file)
    else pyListCheckpointIds rest

/-- Lines 60-91 of train.py, entered with a truthy `checkpoint_output_dir`, a
selector other than `'none'` and no agent supplied.  Faithful to the source,
when `<dir>/checkpoints` is not a directory the code logs an error and sets
`checkpoint_path = None`, but then still falls through to
`os.listdir(checkpoint_path)`, which with `None` lists the process working
directory; a later `os.path.join(None, ...)` raises `TypeError`.  The
`Checkpoint.none` case is unreachable from `main` (guarded at line 57); it
corresponds to `int('none')` raising `ValueError` at line 83. -/
def scanAndSelect (checkpoint_output_dir : String) (checkpoint : Checkpoint)
    (fs : FileSystem) : Except PyError (Option String × List Event) :=
  let cp0 := osPathJoin checkpoint_output_dir "checkpoints"
  let dirOk := fs.checkpointsDirExists
  let cp1 : Option String := if dirOk then some cp0 else Option.none
  let evs0 : List Event :=
    if dirOk then [.fsIsDir cp0] else [.fsIsDir cp0, .logErrorNotADirectory cp0]
  let entries : List String := if dirOk then fs.checkpointsEntries else fs.cwdEntries
  let evs1 : List Event := evs0 ++ [.fsListDir cp1]
  match pyListCheckpointIds entries with
  | .error e => .error e
  | .ok ids =>
    if ids.isEmpty then
      .ok (Option.none, evs1 ++ [.logErrorNoCheckpointFound cp1])
    else
      match checkpoint with
      | .last =>
        match cp1 with
        | some cp => .ok (some (osPathJoin cp (stepName (pyMax ids))), evs1)
        | Option.none => .error .typeError
      | .first =>
        match cp1 with
        | some cp => .ok (some (osPathJoin cp (stepName (pyMin ids))), evs1)
        | Option.none => .error .typeError
      | .none => .error (.valueError "none")
      | .id n =>
        if n ∈ ids then
          match cp1 with
          | some cp => .ok (some (osPathJoin cp (stepName n)), evs1)
          | Option.none => .error .typeError
        else
          .ok (Option.none, evs1 ++ [.logErrorCheckpointNotFound n cp1])

/-- The checkpoint resolution of train.py lines 50-91: with a falsy
`checkpoint_output_dir` nothing happens and `checkpoint_path` stays `None`;
otherwise the run is logged, and either the opt-out branch (selector `'none'`
or `agent is not None`, line 57) is taken, or the directory is scanned. -/
def resolverPhase (cfg : TonicTrainConfig) (fs : FileSystem) :
    Except PyError (Option String × List Event) :=
  if optTruthy cfg.checkpoint_output_dir then
    let dir := cfg.checkpoint_output_dir.getD ""
    if cfg.checkpoint = Checkpoint.none ∨ cfg.agent ≠ PyVal.none then
      .ok (Option.none, [.logLoadingExperiment dir, .logNotLoadingWeights])
    else
      match scanAndSelect dir cfg.checkpoint fs with
      | .ok (p, evs) => .ok (p, .logLoadingExperiment dir :: evs)
      | .error e => .error e
  else .ok (Option.none, [])

/-- The five locals reassigned by the merge (train.py lines 99-103). -/
structure Effective where
  header : Option String
  agent : PyVal
  environment : PyVal
  test_environment : PyVal
  trainer : PyVal
deriving Repr, DecidableEq

/-- The merge of train.py lines 99-103: `x = x or config.x` for each of the
five fields. -/
def mergeFields (cfg : TonicTrainConfig) (pc : PersistedConfig) : Effective :=
  { header := optOr cfg.header pc.header
    agent := pyOr cfg.agent pc.agent
    environment := pyOr cfg.environment pc.environment
    test_environment := pyOr cfg.test_environment pc.test_environment
    trainer := pyOr cfg.trainer pc.trainer }

/-- The five locals when no merge happens: the current values unchanged. -/
def effectiveOfCfg (cfg : TonicTrainConfig) : Effective :=
  { header := cfg.header, agent := cfg.agent, environment := cfg.environment,
    test_environment := cfg.test_environment, trainer := cfg.trainer }

/-- The configuration load and merge of train.py lines 93-103.  In the source
this sits in the same `if checkpoint_output_dir:` block as the resolver; it is
split out here under the same guard.  `open()` on a missing `config.yaml`
raises. -/
def configPhase (cfg : TonicTrainConfig) (fs : FileSystem) :
    Except PyError (Effective × List Event) :=
  if optTruthy cfg.checkpoint_output_dir then
    let configPath := osPathJoin (cfg.checkpoint_output_dir.getD "") "config.yaml"
    match fs.configYaml with
    | Option.none => .error (.fileNotFound configPath)
    | some pc => .ok (mergeFields cfg pc, [.fsOpenConfig configPath])
  else .ok (effectiveOfCfg cfg, [])

/-- The captured argument mapping `args = dict(locals()); del args['cfg']`
(train.py lines 47-48): a snapshot of the twelve config locals taken before
the resolver and the merge run. -/
def capturedArgs (cfg : TonicTrainConfig) : List (String × ArgVal) :=
  [("header", .ostr cfg.header), ("agent", .py cfg.agent),
   ("environment", .py cfg.environment),
   ("test_environment", .py cfg.test_environment),
   ("trainer", .py cfg.trainer),
   ("before_training", .ostr cfg.before_training),
   ("after_training", .ostr cfg.after_training),
   ("parallel", .int cfg.parallel), ("sequential", .int cfg.sequential),
   ("seed", .int cfg.seed), ("checkpoint", .sel cfg.checkpoint),
   ("checkpoint_output_dir", .ostr cfg.checkpoint_output_dir)]

/-- Identity of the invoking entry point, `__file__` at train.py line 135. -/
def trainScriptFile : String := "tonic/hydra/train.py"

/-- Modelled from the spec: the default worker counts of
`tonic.environments.distribute` (that function's code is not part of this
source file).  When called without explicit parallel and sequential
arguments, as for the test environment at train.py line 117, it builds a
single undistributed environment: `parallel = 1` and `sequential = 1`. -/
def distributeDefaultWorkers : Int × Int := (1, 1)

/-- `if code: exec(code)` for the header and hook snippets
(train.py lines 106-107, 146-147, 153-154). -/
def snippetEvs (which : String) (code : Option String) : List Event :=
  if optTruthy code then [.execSnippet which (code.getD "")] else []

/-- The composition pipeline of train.py lines 105-154, given the merged
fields and the resolved checkpoint path: header snippet, training environment
build and initialize, test environment build and initialize, agent build and
initialize, optional weight load, logger initialization, trainer build and
initialize, before_training snippet, the trainer run, after_training
snippet. -/
def pipelineEvents (cfg : TonicTrainConfig) (eff : Effective)
    (checkpointPath : Option String) (outputDir : String) : List Event :=
  snippetEvs "header" eff.header
  ++ [.envBuild eff.environment cfg.parallel cfg.sequential, .envInit cfg.seed]
  ++ [.testEnvBuild (pyOr eff.test_environment eff.environment)
        distributeDefaultWorkers.1 distributeDefaultWorkers.2,
      .testEnvInit (cfg.seed + 10000)]
  ++ [.agentBuild eff.agent, .agentInit cfg.seed]
  ++ (match checkpointPath with
      | some p => [.agentLoad p]
      | Option.none => [])
  ++ [.loggerInit outputDir trainScriptFile (capturedArgs cfg)]
  ++ [.trainerBuild eff.trainer, .trainerInit]
  ++ snippetEvs "before_training" cfg.before_training
  ++ [.trainerRun]
  ++ snippetEvs "after_training" cfg.after_training

/-- The whole of `main` (train.py lines 30-154): resolve the checkpoint,
load and merge the persisted configuration, then run the composition
pipeline; any raised exception aborts the run at that point. -/
def Train.main (cfg : TonicTrainConfig) (fs : FileSystem) (outputDir : String) :
    Except PyError (List Event) :=
  match resolverPhase cfg fs with
  | .error e => .error e
  | .ok (checkpointPath, evsR) =>
    match configPhase cfg fs with
    | .error e => .error e
    | .ok (eff, evsC) =>
      .ok (evsR ++ evsC ++ pipelineEvents cfg eff checkpointPath outputDir)

/- ------------------------------------------------------------------ -/
/- Event classifiers used by the theorems.                             -/
/- ------------------------------------------------------------------ -/

/-- Pipeline events: construction, initialization, snippet execution, weight
loading, logger initialization and the trainer run — everything that is not a
log line or a filesystem access. -/
def Event.isPipeline : Event → Bool
  | .logLoadingExperiment _ => false
  | .logNotLoadingWeights => false
  | .logErrorNotADirectory _ => false
  | .logErrorNoCheckpointFound _ => false
  | .logErrorCheckpointNotFound _ _ => false
  | .fsIsDir _ => false
  | .fsListDir _ => false
  | .fsOpenConfig _ => false
  | .execSnippet _ _ => true
  | .envBuild _ _ _ => true
  | .envInit _ => true
  | .testEnvBuild _ _ _ => true
  | .testEnvInit _ => true
  | .agentBuild _ => true
  | .agentInit _ => true
  | .agentLoad _ => true
  | .loggerInit _ _ _ => true
  | .trainerBuild _ => true
  | .trainerInit => true
  | .trainerRun => true

/-- Filesystem accesses. -/
def Event.isFs : Event → Bool
  | .fsIsDir _ => true
  | .fsListDir _ => true
  | .fsOpenConfig _ => true
  | _ => false

/-- Checkpoint directory scans (`os.path.isdir` / `os.listdir`). -/
def Event.isScan : Event → Bool
  | .fsIsDir _ => true
  | .fsListDir _ => true
  | _ => false

/-- Weight loads (`agent.load`). -/
def Event.isLoad : Event → Bool
  | .agentLoad _ => true
  | _ => false

/-- The trainer run (`trainer.run()`). -/
def Event.isRun : Event → Bool
  | .trainerRun => true
  | _ => false

/- ------------------------------------------------------------------ -/
/- Helper lemmas.                                                      -/
/- ------------------------------------------------------------------ -/

theorem pyTruthy_ne_none {v : PyVal} (h : v.truthy = true) : v ≠ PyVal.none := by
  intro hv
  subst hv
  simp [PyVal.truthy] at h

theorem optTruthy_some {dir : String} (hne : dir ≠ "") :
    optTruthy (some dir) = true := by
  simp [optTruthy, hne]

theorem scanAndSelect_obs {dir : String} {ck : Checkpoint} {fs : FileSystem}
    {p : Option String} {evs : List Event}
    (h : scanAndSelect dir ck fs = .ok (p, evs)) :
    ∀ e ∈ evs, e.isPipeline = false := by
  simp only [scanAndSelect] at h
  repeat' split at h
  all_goals
    first
    | exact Except.noConfusion h
    | (injection h with h'
       injection h' with h1 h2
       subst h2
       simp [Event.isPipeline])

theorem resolverPhase_obs {cfg : TonicTrainConfig} {fs : FileSystem}
    {p : Option String} {evs : List Event}
    (h : resolverPhase cfg fs = .ok (p, evs)) :
    ∀ e ∈ evs, e.isPipeline = false := by
  simp only [resolverPhase] at h
  split at h
  · split at h
    · injection h with h'
      injection h' with h1 h2
      subst h2
      simp [Event.isPipeline]
    · split at h
      · rename_i p' evs' hscan
        injection h with h'
        injection h' with h1 h2
        subst h2
        intro e he
        cases he with
        | head => rfl
        | tail b hmem => exact scanAndSelect_obs hscan e hmem
      · exact Except.noConfusion h
  · injection h with h'
    injection h' with h1 h2
    subst h2
    intro e he
    cases he

theorem configPhase_obs {cfg : TonicTrainConfig} {fs : FileSystem}
    {eff : Effective} {evs : List Event}
    (h : configPhase cfg fs = .ok (eff, evs)) :
    ∀ e ∈ evs, e.isPipeline = false := by
  simp only [configPhase] at h
  split at h
  · split at h
    · exact Except.noConfusion h
    · injection h with h'
      injection h' with h1 h2
      subst h2
      simp [Event.isPipeline]
  · injection h with h'
    injection h' with h1 h2
    subst h2
    intro e he
    cases he

theorem main_ok_decomp {cfg : TonicTrainConfig} {fs : FileSystem}
    {od : String} {tr : List Event}
    (h : Train.main cfg fs od = .ok tr) :
    ∃ cp evsR eff evsC,
      resolverPhase cfg fs = .ok (cp, evsR) ∧
      configPhase cfg fs = .ok (eff, evsC) ∧
      tr = evsR ++ evsC ++ pipelineEvents cfg eff cp od := by
  unfold Train.main at h
  rcases hr : resolverPhase cfg fs with e | ⟨cp, evsR⟩ <;> rw [hr] at h
  · cases h
  · rcases hc : configPhase cfg fs with e | ⟨eff, evsC⟩ <;> rw [hc] at h
    · cases h
    · exact ⟨cp, evsR, eff, evsC, rfl, rfl, by cases h; rfl⟩

theorem not_pipeline_isRun {e : Event} (h : e.isPipeline = false) :
    e.isRun = false := by
  cases e <;> simp_all [Event.isPipeline, Event.isRun]

theorem not_pipeline_isLoad {e : Event} (h : e.isPipeline = false) :
    e.isLoad = false := by
  cases e <;> simp_all [Event.isPipeline, Event.isLoad]

theorem isPipeline_not_isScan {e : Event} (h : e.isPipeline = true) :
    e.isScan = false := by
  cases e <;> simp_all [Event.isPipeline, Event.isScan]

theorem pipeline_filter_self (cfg : TonicTrainConfig) (eff : Effective)
    (cp : Option String) (od : String) :
    (pipelineEvents cfg eff cp od).filter Event.isPipeline =
      pipelineEvents cfg eff cp od := by
  unfold pipelineEvents snippetEvs
  cases cp <;> split_ifs <;> rfl

theorem pipeline_countP_run (cfg : TonicTrainConfig) (eff : Effective)
    (cp : Option String) (od : String) :
    (pipelineEvents cfg eff cp od).countP Event.isRun = 1 := by
  unfold pipelineEvents snippetEvs
  cases cp <;> split_ifs <;> rfl

theorem pipeline_no_fs (cfg : TonicTrainConfig) (eff : Effective)
    (cp : Option String) (od : String) :
    (pipelineEvents cfg eff cp od).filter Event.isFs = [] := by
  unfold pipelineEvents snippetEvs
  cases cp <;> split_ifs <;> rfl

theorem pipeline_no_scan (cfg : TonicTrainConfig) (eff : Effective)
    (cp : Option String) (od : String) :
    (pipelineEvents cfg eff cp od).filter Event.isScan = [] := by
  unfold pipelineEvents snippetEvs
  cases cp <;> split_ifs <;> rfl

theorem pipeline_none_no_load (cfg : TonicTrainConfig) (eff : Effective)
    (od : String) :
    (pipelineEvents cfg eff Option.none od).filter Event.isLoad = [] := by
  unfold pipelineEvents snippetEvs
  split_ifs <;> rfl

/- ------------------------------------------------------------------ -/
/- Claim theorems.                                                     -/
/- ------------------------------------------------------------------ -/

/-- C1: Checkpoint selection policy.  For every resume run (truthy
`checkpoint_output_dir`, selector not `'none'`, no agent descriptor supplied)
whose checkpoints directory exists and yields a non-empty list of step ids,
selector `'last'` resolves the checkpoint path to `step_<max ids>`, selector
`'first'` resolves to `step_<min ids>`, and an integer selector `n` resolves
to `step_n` when `n` is among the ids and otherwise yields no checkpoint
together with a "checkpoint not found" error log. -/
theorem C1_checkpoint_selection (cfg : TonicTrainConfig) (fs : FileSystem)
    (dir : String) (ids : List Int)
    (hdir : cfg.checkpoint_output_dir = some dir) (hne : dir ≠ "")
    (hagent : cfg.agent = PyVal.none)
    (hisdir : fs.checkpointsDirExists = true)
    (hids : pyListCheckpointIds fs.checkpointsEntries = .ok ids)
    (hnon : ids ≠ []) :
    (cfg.checkpoint = Checkpoint.last →
      ∃ evs, resolverPhase cfg fs =
        .ok (some (osPathJoin (osPathJoin dir "checkpoints") (stepName (pyMax ids))), evs)) ∧
    (cfg.checkpoint = Checkpoint.first →
      ∃ evs, resolverPhase cfg fs =
        .ok (some (osPathJoin (osPathJoin dir "checkpoints") (stepName (pyMin ids))), evs)) ∧
    (∀ n : Int, cfg.checkpoint = Checkpoint.id n → n ∈ ids →
      ∃ evs, resolverPhase cfg fs =
        .ok (some (osPathJoin (osPathJoin dir "checkpoints") (stepName n)), evs)) ∧
    (∀ n : Int, cfg.checkpoint = Checkpoint.id n → n ∉ ids →
      ∃ evs, resolverPhase cfg fs = .ok (Option.none, evs) ∧
        Event.logErrorCheckpointNotFound n (some (osPathJoin dir "checkpoints")) ∈ evs) := by
  have hie : ids.isEmpty = false := by
    cases ids with
    | nil => exact absurd rfl hnon
    | cons a l => rfl
  refine ⟨?_, ?_, ?_, ?_⟩
  · intro hsel
    have hres : resolverPhase cfg fs =
        .ok (some (osPathJoin (osPathJoin dir "checkpoints") (stepName (pyMax ids))),
             [Event.logLoadingExperiment dir,
              Event.fsIsDir (osPathJoin dir "checkpoints"),
              Event.fsListDir (some (osPathJoin dir "checkpoints"))]) := by
      simp only [resolverPhase, hdir, optTruthy_some hne, if_true, Option.getD_some,
        hsel, hagent]
      rw [if_neg (by simp)]
      simp only [scanAndSelect, hisdir, if_true, hids, hie]
      rfl
    exact ⟨_, hres⟩
  · intro hsel
    have hres : resolverPhase cfg fs =
        .ok (some (osPathJoin (osPathJoin dir "checkpoints") (stepName (pyMin ids))),
             [Event.logLoadingExperiment dir,
              Event.fsIsDir (osPathJoin dir "checkpoints"),
              Event.fsListDir (some (osPathJoin dir "checkpoints"))]) := by
      simp only [resolverPhase, hdir, optTruthy_some hne, if_true, Option.getD_some,
        hsel, hagent]
      rw [if_neg (by simp)]
      simp only [scanAndSelect, hisdir, if_true, hids, hie]
      rfl
    exact ⟨_, hres⟩
  · intro n hsel hmem
    have hres : resolverPhase cfg fs =
        .ok (some (osPathJoin (osPathJoin dir "checkpoints") (stepName n)),
             [Event.logLoadingExperiment dir,
              Event.fsIsDir (osPathJoin dir "checkpoints"),
              Event.fsListDir (some (osPathJoin dir "checkpoints"))]) := by
      simp only [resolverPhase, hdir, optTruthy_some hne, if_true, Option.getD_some,
        hsel, hagent]
      rw [if_neg (by simp)]
      simp only [scanAndSelect, hisdir, if_true, hids, hie]
      rw [if_pos hmem]
      rfl
    exact ⟨_, hres⟩
  · intro n hsel hmem
    have hres : resolverPhase cfg fs =
        .ok (Option.none,
             [Event.logLoadingExperiment dir,
              Event.fsIsDir (osPathJoin dir "checkpoints"),
              Event.fsListDir (some (osPathJoin dir "checkpoints")),
              Event.logErrorCheckpointNotFound n (some (osPathJoin dir "checkpoints"))]) := by
      simp only [resolverPhase, hdir, optTruthy_some hne, if_true, Option.getD_some,
        hsel, hagent]
      rw [if_neg (by simp)]
      simp only [scanAndSelect, hisdir, if_true, hids, hie]
      rw [if_neg hmem]
      rfl
    exact ⟨_, hres, by simp⟩

/-- A persisted configuration with all five fields valuable, used by witnesses. -/
def pcSample : PersistedConfig :=
  { header := some "import torch", agent := PyVal.dict ["agent"],
    environment := PyVal.dict ["env0"], test_environment := PyVal.none,
    trainer := PyVal.dict ["tr0"] }

/-- A resume configuration with no agent supplied and selector `'last'`. -/
def cfgResume : TonicTrainConfig :=
  { header := Option.none, agent := PyVal.none, environment := PyVal.dict ["env"],
    test_environment := PyVal.none, trainer := PyVal.dict ["tr"],
    before_training := Option.none, after_training := Option.none,
    parallel := 1, sequential := 1, seed := 0, checkpoint := Checkpoint.last,
    checkpoint_output_dir := some "out" }

/-- A filesystem whose checkpoints directory holds steps 3, 7 and 12 (the
spec's example set) and whose `config.yaml` is `pcSample`. -/
def fsSteps : FileSystem :=
  { checkpointsDirExists := true,
    checkpointsEntries := ["step_3", "step_7.pt", "step_12"],
    cwdEntries := [], configYaml := some pcSample }

/-- Witness for C1 at the spec's example: steps 3, 7, 12 and selector
`'last'` resolve to `out/checkpoints/step_12`. -/
theorem C1_checkpoint_selection_witness :
    ∃ evs, resolverPhase cfgResume fsSteps =
      .ok (some "out/checkpoints/step_12", evs) :=
  (C1_checkpoint_selection cfgResume fsSteps "out" [3, 7, 12] rfl (by decide)
    rfl rfl rfl (by decide)).1 rfl

/-- C2: Opt-out rule.  For every run with `checkpoint_output_dir` set, if the
selector is `'none'` or the current spec supplies a non-empty (truthy) agent
descriptor, the resolver yields no checkpoint, performs no scan of the
checkpoint directory, logs that no weights will be loaded, and the run's
trace contains no checkpoint-directory scan and no `agent.load` call — for
every filesystem content, so in particular even when valid checkpoints exist
on disk. -/
theorem C2_opt_out (cfg : TonicTrainConfig) (fs : FileSystem) (od : String)
    (pc : PersistedConfig) (dir : String)
    (hdir : cfg.checkpoint_output_dir = some dir) (hne : dir ≠ "")
    (hopt : cfg.checkpoint = Checkpoint.none ∨ cfg.agent.truthy = true)
    (hyaml : fs.configYaml = some pc) :
    resolverPhase cfg fs =
      .ok (Option.none,
           [Event.logLoadingExperiment dir, Event.logNotLoadingWeights]) ∧
    ∃ tr, Train.main cfg fs od = .ok tr ∧
      Event.logNotLoadingWeights ∈ tr ∧
      tr.filter Event.isScan = [] ∧
      tr.filter Event.isLoad = [] := by
  have hguard : cfg.checkpoint = Checkpoint.none ∨ cfg.agent ≠ PyVal.none := by
    rcases hopt with h | h
    · exact Or.inl h
    · exact Or.inr (pyTruthy_ne_none h)
  have hres : resolverPhase cfg fs =
      .ok (Option.none,
           [Event.logLoadingExperiment dir, Event.logNotLoadingWeights]) := by
    simp only [resolverPhase, hdir, optTruthy_some hne, if_true, Option.getD_some]
    rw [if_pos hguard]
  have hcfgp : configPhase cfg fs =
      .ok (mergeFields cfg pc,
           [Event.fsOpenConfig (osPathJoin dir "config.yaml")]) := by
    simp only [configPhase, hdir, optTruthy_some hne, if_true, Option.getD_some, hyaml]
  refine ⟨hres,
    [Event.logLoadingExperiment dir, Event.logNotLoadingWeights]
      ++ [Event.fsOpenConfig (osPathJoin dir "config.yaml")]
      ++ pipelineEvents cfg (mergeFields cfg pc) Option.none od, ?_, ?_, ?_, ?_⟩
  · unfold Train.main
    rw [hres, hcfgp]
  · simp
  · simp [List.filter_append, pipeline_no_scan, List.filter, Event.isScan]
  · simp [List.filter_append, pipeline_none_no_load, List.filter, Event.isLoad]

/-- A resume configuration that explicitly supplies an agent descriptor
(the spec's end-to-end scenario C). -/
def cfgAgentSupplied : TonicTrainConfig :=
  { cfgResume with agent := PyVal.dict ["agent_new"] }

/-- Witness for C2: with an agent explicitly supplied and valid checkpoints
on disk, the resolver yields no checkpoint and the run neither scans the
checkpoint directory nor calls `agent.load`. -/
theorem C2_opt_out_witness :
    resolverPhase cfgAgentSupplied fsSteps =
      .ok (Option.none,
           [Event.logLoadingExperiment "out", Event.logNotLoadingWeights]) ∧
    ∃ tr, Train.main cfgAgentSupplied fsSteps "outdir" = .ok tr ∧
      Event.logNotLoadingWeights ∈ tr ∧
      tr.filter Event.isScan = [] ∧
      tr.filter Event.isLoad = [] :=
  C2_opt_out cfgAgentSupplied fsSteps "outdir" pcSample "out" rfl (by decide)
    (Or.inr rfl) rfl

/-- A filesystem for a resume run whose `<dir>/checkpoints` is missing while
the process working directory happens to contain an entry named `step_5`. -/
def fsMissingCkpts : FileSystem :=
  { checkpointsDirExists := false, checkpointsEntries := [],
    cwdEntries := ["step_5"], configYaml := some pcSample }

/-- C3: Missing checkpoints subdirectory.  The code logs the error and resets
`checkpoint_path` to `None`, but then falls through and scans
`os.listdir(None)` — the process working directory.  When that directory
contains a `step_`-prefixed entry, `os.path.join(None, ...)` raises a fatal
`TypeError`, so the condition is not "never fatal by itself" as claimed: the
run dies instead of continuing with no weights.  (Third conjunct: even in the
benign case of a `step_`-free working directory, the resolver still lists the
working directory — `fsListDir` with path `None` — before degrading.) -/
theorem C3_missing_dir_scans_cwd_and_can_raise :
    Train.main cfgResume fsMissingCkpts "outdir" = .error PyError.typeError ∧
    resolverPhase cfgResume fsMissingCkpts = .error PyError.typeError ∧
    resolverPhase cfgResume { fsMissingCkpts with cwdEntries := [] } =
      .ok (Option.none,
        [Event.logLoadingExperiment "out", Event.fsIsDir "out/checkpoints",
         Event.logErrorNotADirectory "out/checkpoints",
         Event.fsListDir Option.none,
         Event.logErrorNoCheckpointFound Option.none]) :=
  ⟨rfl, rfl, rfl⟩

/-- A checkpoints directory containing a malformed `step_` entry. -/
def fsMalformed : FileSystem :=
  { checkpointsDirExists := true,
    checkpointsEntries := ["step_3", "step_final.pt"],
    cwdEntries := [], configYaml := some pcSample }

/-- C4 counterexample: an entry whose name starts with `step_` but whose id
segment is not a valid integer is not silently ignored — the scan raises
`ValueError` (from `int('final')`) and the whole run dies with it. -/
theorem C4_counterexample :
    pyListCheckpointIds ["step_3", "step_final.pt"] =
      .error (PyError.valueError "step_final.pt") ∧
    resolverPhase cfgResume fsMalformed =
      .error (PyError.valueError "step_final.pt") ∧
    Train.main cfgResume fsMalformed "outdir" =
      .error (PyError.valueError "step_final.pt") :=
  ⟨rfl, rfl, rfl⟩

/-- C4 as amended: an entry contributes a step id exactly when its name
starts with `step_` and the segment between that prefix and the first `'.'`
parses as an integer; entries not starting with `step_` are skipped; but a
`step_`-prefixed entry whose id segment is not a valid integer makes the scan
raise `ValueError` (it is not silently ignored). -/
theorem C4_step_entry_parsing (entries : List String) :
    ((∀ f ∈ entries, isStepEntry f = true → (stepEntryId f).isSome = true) →
      pyListCheckpointIds entries =
        .ok (entries.filterMap
          (fun f => if isStepEntry f then stepEntryId f else Option.none))) ∧
    (∀ f ∈ entries, isStepEntry f = true → stepEntryId f = Option.none →
      ∃ g, pyListCheckpointIds entries = .error (.valueError g) ∧
        isStepEntry g = true ∧ stepEntryId g = Option.none) := by
  induction entries with
  | nil =>
    refine ⟨fun _ => rfl, ?_⟩
    intro f hf
    cases hf
  | cons a l ih =>
    constructor
    · intro hall
      by_cases ha : isStepEntry a = true
      · rcases hsid : stepEntryId a with _ | n
        · have hcontra := hall a (List.mem_cons_self a l) ha
          rw [hsid] at hcontra
          cases hcontra
        · have hrest := ih.1 (fun f hf hsf => hall f (List.mem_cons_of_mem a hf) hsf)
          simp [pyListCheckpointIds, ha, hsid, hrest, List.filterMap_cons]
      · have hrest := ih.1 (fun f hf hsf => hall f (List.mem_cons_of_mem a hf) hsf)
        simp only [Bool.not_eq_true] at ha
        simp [pyListCheckpointIds, ha, hrest, List.filterMap_cons]
    · intro f hf hsf hnone
      rcases List.mem_cons.mp hf with rfl | hmem
      · exact ⟨f, by simp [pyListCheckpointIds, hsf, hnone], hsf, hnone⟩
      · by_cases ha : isStepEntry a = true
        · rcases hsid : stepEntryId a with _ | n
          · exact ⟨a, by simp [pyListCheckpointIds, ha, hsid], ha, hsid⟩
          · obtain ⟨g, hg1, hg2, hg3⟩ := ih.2 f hmem hsf hnone
            exact ⟨g, by simp [pyListCheckpointIds, ha, hsid, hg1], hg2, hg3⟩
        · obtain ⟨g, hg1, hg2, hg3⟩ := ih.2 f hmem hsf hnone
          simp only [Bool.not_eq_true] at ha
          exact ⟨g, by simp [pyListCheckpointIds, ha, hg1], hg2, hg3⟩

/-- Witness for C4's amended statement: a directory with two well-formed
`step_` entries and one foreign entry scans to exactly their ids. -/
theorem C4_step_entry_parsing_witness :
    pyListCheckpointIds ["step_3", "step_7.pt", "other.txt"] = .ok [3, 7] :=
  (C4_step_entry_parsing ["step_3", "step_7.pt", "other.txt"]).1 (by decide)

theorem pipeline_mem_envBuild (cfg : TonicTrainConfig) (eff : Effective)
    (cp : Option String) (od : String) :
    Event.envBuild eff.environment cfg.parallel cfg.sequential ∈
      pipelineEvents cfg eff cp od := by
  unfold pipelineEvents snippetEvs
  cases cp <;> split_ifs <;> simp

theorem pipeline_mem_envInit (cfg : TonicTrainConfig) (eff : Effective)
    (cp : Option String) (od : String) :
    Event.envInit cfg.seed ∈ pipelineEvents cfg eff cp od := by
  unfold pipelineEvents snippetEvs
  cases cp <;> split_ifs <;> simp

theorem pipeline_mem_testEnvBuild (cfg : TonicTrainConfig) (eff : Effective)
    (cp : Option String) (od : String) :
    Event.testEnvBuild (pyOr eff.test_environment eff.environment) 1 1 ∈
      pipelineEvents cfg eff cp od := by
  unfold pipelineEvents snippetEvs
  cases cp <;> split_ifs <;> simp [distributeDefaultWorkers]

theorem pipeline_mem_testEnvInit (cfg : TonicTrainConfig) (eff : Effective)
    (cp : Option String) (od : String) :
    Event.testEnvInit (cfg.seed + 10000) ∈ pipelineEvents cfg eff cp od := by
  unfold pipelineEvents snippetEvs
  cases cp <;> split_ifs <;> simp

theorem pipeline_mem_loggerInit (cfg : TonicTrainConfig) (eff : Effective)
    (cp : Option String) (od : String) :
    Event.loggerInit od trainScriptFile (capturedArgs cfg) ∈
      pipelineEvents cfg eff cp od := by
  unfold pipelineEvents snippetEvs
  cases cp <;> split_ifs <;> simp

theorem pipeline_mem_before (cfg : TonicTrainConfig) (eff : Effective)
    (cp : Option String) (od : String)
    (h : optTruthy cfg.before_training = true) :
    Event.execSnippet "before_training" (cfg.before_training.getD "") ∈
      pipelineEvents cfg eff cp od := by
  unfold pipelineEvents snippetEvs
  cases cp <;> split_ifs <;> simp_all

theorem pipeline_mem_after (cfg : TonicTrainConfig) (eff : Effective)
    (cp : Option String) (od : String)
    (h : optTruthy cfg.after_training = true) :
    Event.execSnippet "after_training" (cfg.after_training.getD "") ∈
      pipelineEvents cfg eff cp od := by
  unfold pipelineEvents snippetEvs
  cases cp <;> split_ifs <;> simp_all

theorem pipeline_testEnvBuild_inv {cfg : TonicTrainConfig} {eff : Effective}
    {cp : Option String} {od : String} {d : PyVal} {p s : Int}
    (h : Event.testEnvBuild d p s ∈ pipelineEvents cfg eff cp od) :
    d = pyOr eff.test_environment eff.environment ∧ p = 1 ∧ s = 1 := by
  unfold pipelineEvents snippetEvs at h
  cases cp <;> split_ifs at h <;> simp_all [distributeDefaultWorkers]

theorem pipeline_testEnvInit_inv {cfg : TonicTrainConfig} {eff : Effective}
    {cp : Option String} {od : String} {s : Int}
    (h : Event.testEnvInit s ∈ pipelineEvents cfg eff cp od) :
    s = cfg.seed + 10000 := by
  unfold pipelineEvents snippetEvs at h
  cases cp <;> split_ifs at h <;> simp_all

theorem pipeline_loggerInit_inv {cfg : TonicTrainConfig} {eff : Effective}
    {cp : Option String} {od : String} {d f : String} {a : List (String × ArgVal)}
    (h : Event.loggerInit d f a ∈ pipelineEvents cfg eff cp od) :
    d = od ∧ f = trainScriptFile ∧ a = capturedArgs cfg := by
  unfold pipelineEvents snippetEvs at h
  cases cp <;> split_ifs at h <;> simp_all

/-- C5: Configuration merge.  When `checkpoint_output_dir` is unset the
effective spec equals the current spec unchanged; when it is set, each of the
five merged fields takes the current value when truthy and the persisted
value otherwise; and `parallel`, `sequential`, `seed`, `before_training` and
`after_training` are taken solely from the current spec — the trace events
carrying them depend only on `cfg`, whatever the persisted config holds; the
checkpoint selector is likewise consumed by the resolver, which is entirely
independent of the persisted configuration. -/
theorem C5_config_merge (cfg : TonicTrainConfig) (fs : FileSystem)
    (pc : PersistedConfig) (hyaml : fs.configYaml = some pc) :
    (optTruthy cfg.checkpoint_output_dir = false →
      configPhase cfg fs = .ok (effectiveOfCfg cfg, [])) ∧
    (optTruthy cfg.checkpoint_output_dir = true →
      (∃ evs, configPhase cfg fs = .ok (mergeFields cfg pc, evs)) ∧
      (optTruthy cfg.header = true → (mergeFields cfg pc).header = cfg.header) ∧
      (optTruthy cfg.header = false → (mergeFields cfg pc).header = pc.header) ∧
      (cfg.agent.truthy = true → (mergeFields cfg pc).agent = cfg.agent) ∧
      (cfg.agent.truthy = false → (mergeFields cfg pc).agent = pc.agent) ∧
      (cfg.environment.truthy = true →
        (mergeFields cfg pc).environment = cfg.environment) ∧
      (cfg.environment.truthy = false →
        (mergeFields cfg pc).environment = pc.environment) ∧
      (cfg.test_environment.truthy = true →
        (mergeFields cfg pc).test_environment = cfg.test_environment) ∧
      (cfg.test_environment.truthy = false →
        (mergeFields cfg pc).test_environment = pc.test_environment) ∧
      (cfg.trainer.truthy = true → (mergeFields cfg pc).trainer = cfg.trainer) ∧
      (cfg.trainer.truthy = false → (mergeFields cfg pc).trainer = pc.trainer)) ∧
    (∀ od tr, Train.main cfg fs od = .ok tr →
      Event.envInit cfg.seed ∈ tr ∧
      Event.testEnvInit (cfg.seed + 10000) ∈ tr ∧
      (∃ d, Event.envBuild d cfg.parallel cfg.sequential ∈ tr) ∧
      (optTruthy cfg.before_training = true →
        Event.execSnippet "before_training" (cfg.before_training.getD "") ∈ tr) ∧
      (optTruthy cfg.after_training = true →
        Event.execSnippet "after_training" (cfg.after_training.getD "") ∈ tr)) ∧
    (∀ pc2, resolverPhase cfg { fs with configYaml := pc2 } = resolverPhase cfg fs) := by
  refine ⟨?_, ?_, ?_, fun pc2 => rfl⟩
  · intro h
    simp [configPhase, h]
  · intro h
    refine ⟨⟨[Event.fsOpenConfig (osPathJoin (cfg.checkpoint_output_dir.getD "") "config.yaml")],
        by simp [configPhase, h, hyaml]⟩, ?_, ?_, ?_, ?_, ?_, ?_, ?_, ?_, ?_, ?_⟩ <;>
      intro hx <;> simp [mergeFields, optOr, pyOr, hx]
  · intro od tr hok
    obtain ⟨cp, evsR, eff, evsC, hr, hc, rfl⟩ := main_ok_decomp hok
    refine ⟨?_, ?_, ⟨eff.environment, ?_⟩, ?_, ?_⟩
    · exact List.mem_append_right _ (pipeline_mem_envInit cfg eff cp od)
    · exact List.mem_append_right _ (pipeline_mem_testEnvInit cfg eff cp od)
    · exact List.mem_append_right _ (pipeline_mem_envBuild cfg eff cp od)
    · intro hb
      exact List.mem_append_right _ (pipeline_mem_before cfg eff cp od hb)
    · intro ha
      exact List.mem_append_right _ (pipeline_mem_after cfg eff cp od ha)

/-- Witness for C5 at a resume run: the current spec omits the agent and
trainer is supplied, so the effective agent is the persisted one and the
effective trainer is the current one; the seed events come from the current
spec. -/
theorem C5_config_merge_witness :
    (mergeFields cfgResume pcSample).agent = pcSample.agent ∧
    (mergeFields cfgResume pcSample).trainer = cfgResume.trainer ∧
    (∃ evs, configPhase cfgResume fsSteps = .ok (mergeFields cfgResume pcSample, evs)) ∧
    ∃ tr, Train.main cfgResume fsSteps "outdir" = .ok tr ∧
      Event.envInit cfgResume.seed ∈ tr ∧
      Event.testEnvInit (cfgResume.seed + 10000) ∈ tr := by
  have h := C5_config_merge cfgResume fsSteps pcSample rfl
  have h2 := h.2.1 rfl
  have h3 := h.2.2.1 "outdir" _ rfl
  exact ⟨h2.2.2.2.2.1 rfl, h2.2.2.2.2.2.2.2.2.2.1 rfl, h2.1, _, rfl, h3.1, h3.2.1⟩

/-- C6: Test environment construction.  In every successful run the test
environment is built undistributed (`parallel = 1`, `sequential = 1`, never
the run's own `parallel`/`sequential`), from the effective
`test_environment` descriptor when truthy and otherwise from the training
environment's descriptor, and it is initialized with seed exactly
`seed + 10000`. -/
theorem C6_test_environment (cfg : TonicTrainConfig) (fs : FileSystem)
    (od : String) (tr : List Event) (h : Train.main cfg fs od = .ok tr) :
    ∃ eff, (∃ evs, configPhase cfg fs = .ok (eff, evs)) ∧
      Event.testEnvBuild (pyOr eff.test_environment eff.environment) 1 1 ∈ tr ∧
      Event.testEnvInit (cfg.seed + 10000) ∈ tr ∧
      (eff.test_environment.truthy = true →
        Event.testEnvBuild eff.test_environment 1 1 ∈ tr) ∧
      (eff.test_environment.truthy = false →
        Event.testEnvBuild eff.environment 1 1 ∈ tr) ∧
      (∀ d p s, Event.testEnvBuild d p s ∈ tr →
        d = pyOr eff.test_environment eff.environment ∧ p = 1 ∧ s = 1) ∧
      (∀ s, Event.testEnvInit s ∈ tr → s = cfg.seed + 10000) := by
  obtain ⟨cp, evsR, eff, evsC, hr, hc, rfl⟩ := main_ok_decomp h
  have hbuild := pipeline_mem_testEnvBuild cfg eff cp od
  refine ⟨eff, ⟨evsC, hc⟩,
    List.mem_append_right _ hbuild,
    List.mem_append_right _ (pipeline_mem_testEnvInit cfg eff cp od),
    ?_, ?_, ?_, ?_⟩
  · intro ht
    have : pyOr eff.test_environment eff.environment = eff.test_environment := by
      simp [pyOr, ht]
    rw [this] at hbuild
    exact List.mem_append_right _ hbuild
  · intro ht
    have : pyOr eff.test_environment eff.environment = eff.environment := by
      simp [pyOr, ht]
    rw [this] at hbuild
    exact List.mem_append_right _ hbuild
  · intro d p s hmem
    rcases List.mem_append.mp hmem with hmem' | hpipe
    · rcases List.mem_append.mp hmem' with hR | hC
      · have := resolverPhase_obs hr _ hR
        simp [Event.isPipeline] at this
      · have := configPhase_obs hc _ hC
        simp [Event.isPipeline] at this
    · exact pipeline_testEnvBuild_inv hpipe
  · intro s hmem
    rcases List.mem_append.mp hmem with hmem' | hpipe
    · rcases List.mem_append.mp hmem' with hR | hC
      · have := resolverPhase_obs hr _ hR
        simp [Event.isPipeline] at this
      · have := configPhase_obs hc _ hC
        simp [Event.isPipeline] at this
    · exact pipeline_testEnvInit_inv hpipe

/-- Witness for C6: on a concrete resume run the test environment is built
with workers 1, 1 from the training environment's descriptor and initialized
with seed 0 + 10000. -/
theorem C6_test_environment_witness :
    ∃ tr, Train.main cfgResume fsSteps "outdir" = .ok tr ∧
      ∃ eff, (∃ evs, configPhase cfgResume fsSteps = .ok (eff, evs)) ∧
        Event.testEnvBuild (pyOr eff.test_environment eff.environment) 1 1 ∈ tr ∧
        Event.testEnvInit (cfgResume.seed + 10000) ∈ tr ∧
        (eff.test_environment.truthy = true →
          Event.testEnvBuild eff.test_environment 1 1 ∈ tr) ∧
        (eff.test_environment.truthy = false →
          Event.testEnvBuild eff.environment 1 1 ∈ tr) ∧
        (∀ d p s, Event.testEnvBuild d p s ∈ tr →
          d = pyOr eff.test_environment eff.environment ∧ p = 1 ∧ s = 1) ∧
        (∀ s, Event.testEnvInit s ∈ tr → s = cfgResume.seed + 10000) :=
  ⟨_, rfl, C6_test_environment cfgResume fsSteps "outdir" _ rfl⟩

/-- C7: Pipeline ordering.  In every successful run the pipeline events of
the trace are exactly `pipelineEvents`: optional header snippet, then
training environment build and initialize with `seed`, then test environment
build and initialize, then agent build and initialize with `seed`, then the
optional `agent.load` when a checkpoint path was resolved, then logger
initialization, then trainer build and initialize, then the optional
`before_training` snippet, then `trainer.run()`, then the optional
`after_training` snippet — each step at most once and `trainer.run()`
exactly once. -/
theorem C7_pipeline_order (cfg : TonicTrainConfig) (fs : FileSystem)
    (od : String) (tr : List Event) (h : Train.main cfg fs od = .ok tr) :
    (∃ eff cp, (∃ evs, resolverPhase cfg fs = .ok (cp, evs)) ∧
      (∃ evs, configPhase cfg fs = .ok (eff, evs)) ∧
      tr.filter Event.isPipeline = pipelineEvents cfg eff cp od) ∧
    tr.countP Event.isRun = 1 := by
  obtain ⟨cp, evsR, eff, evsC, hr, hc, rfl⟩ := main_ok_decomp h
  have h1 : evsR.filter Event.isPipeline = [] :=
    List.filter_eq_nil_iff.mpr (fun e he => by simp [resolverPhase_obs hr e he])
  have h2 : evsC.filter Event.isPipeline = [] :=
    List.filter_eq_nil_iff.mpr (fun e he => by simp [configPhase_obs hc e he])
  have h3 : evsR.countP Event.isRun = 0 :=
    List.countP_eq_zero.mpr
      (fun e he => by simp [not_pipeline_isRun (resolverPhase_obs hr e he)])
  have h4 : evsC.countP Event.isRun = 0 :=
    List.countP_eq_zero.mpr
      (fun e he => by simp [not_pipeline_isRun (configPhase_obs hc e he)])
  constructor
  · exact ⟨eff, cp, ⟨evsR, hr⟩, ⟨evsC, hc⟩,
      by simp [List.filter_append, h1, h2, pipeline_filter_self]⟩
  · simp [List.countP_append, h3, h4, pipeline_countP_run]

/-- Witness for C7 on a concrete resume run. -/
theorem C7_pipeline_order_witness :
    ∃ tr, Train.main cfgResume fsSteps "outdir" = .ok tr ∧
      (∃ eff cp, (∃ evs, resolverPhase cfgResume fsSteps = .ok (cp, evs)) ∧
        (∃ evs, configPhase cfgResume fsSteps = .ok (eff, evs)) ∧
        tr.filter Event.isPipeline = pipelineEvents cfgResume eff cp "outdir") ∧
      tr.countP Event.isRun = 1 :=
  ⟨_, rfl, C7_pipeline_order cfgResume fsSteps "outdir" _ rfl⟩

/-- C8 counterexample: on a resume run whose current spec omits the agent,
the logger's captured mapping holds the raw pre-merge value
(`agent = None`), not the effective post-merge agent (the persisted
descriptor) — `args = dict(locals())` is snapshotted at train.py line 47,
before the merge at lines 99-103.  So the mapping does not contain every
effective (post-merge) field as claimed. -/
theorem C8_counterexample :
    ∃ tr, Train.main cfgResume fsSteps "outdir" = .ok tr ∧
      Event.loggerInit "outdir" trainScriptFile (capturedArgs cfgResume) ∈ tr ∧
      (∀ d f a, Event.loggerInit d f a ∈ tr → a = capturedArgs cfgResume) ∧
      (capturedArgs cfgResume).lookup "agent" = some (ArgVal.py PyVal.none) ∧
      ∃ eff evs, configPhase cfgResume fsSteps = .ok (eff, evs) ∧
        eff.agent = PyVal.dict ["agent"] ∧
        (capturedArgs cfgResume).lookup "agent" ≠ some (ArgVal.py eff.agent) := by
  obtain ⟨cp, evsR, eff, evsC, hr, hc, htr⟩ :=
    @main_ok_decomp cfgResume fsSteps "outdir" _ rfl
  refine ⟨evsR ++ evsC ++ pipelineEvents cfgResume eff cp "outdir",
    by rw [← htr]; exact rfl, ?_, ?_, rfl, ?_⟩
  · exact List.mem_append_right _ (pipeline_mem_loggerInit cfgResume eff cp "outdir")
  · intro d f a hmem
    rcases List.mem_append.mp hmem with hmem' | hpipe
    · rcases List.mem_append.mp hmem' with hR | hC
      · have := resolverPhase_obs hr _ hR
        simp [Event.isPipeline] at this
      · have := configPhase_obs hc _ hC
        simp [Event.isPipeline] at this
    · exact (pipeline_loggerInit_inv hpipe).2.2
  · exact ⟨mergeFields cfgResume pcSample,
      [Event.fsOpenConfig "out/config.yaml"], rfl, rfl, by decide⟩

/-- C8 as amended: the logger is initialized with the output directory, the
entry-point identity, and a flat mapping containing every top-level field of
the current spec as captured before the merge (the raw pre-merge values) —
`header`, `agent`, `environment`, `test_environment`, `trainer`,
`before_training`, `after_training`, `parallel`, `sequential`, `seed`,
`checkpoint`, `checkpoint_output_dir` — and not the raw config object
itself. -/
theorem C8_captured_args (cfg : TonicTrainConfig) (fs : FileSystem)
    (od : String) (tr : List Event) (h : Train.main cfg fs od = .ok tr) :
    Event.loggerInit od trainScriptFile (capturedArgs cfg) ∈ tr ∧
    (∀ d f a, Event.loggerInit d f a ∈ tr →
      d = od ∧ f = trainScriptFile ∧ a = capturedArgs cfg) ∧
    (capturedArgs cfg).lookup "header" = some (ArgVal.ostr cfg.header) ∧
    (capturedArgs cfg).lookup "agent" = some (ArgVal.py cfg.agent) ∧
    (capturedArgs cfg).lookup "environment" = some (ArgVal.py cfg.environment) ∧
    (capturedArgs cfg).lookup "test_environment" =
      some (ArgVal.py cfg.test_environment) ∧
    (capturedArgs cfg).lookup "trainer" = some (ArgVal.py cfg.trainer) ∧
    (capturedArgs cfg).lookup "before_training" =
      some (ArgVal.ostr cfg.before_training) ∧
    (capturedArgs cfg).lookup "after_training" =
      some (ArgVal.ostr cfg.after_training) ∧
    (capturedArgs cfg).lookup "parallel" = some (ArgVal.int cfg.parallel) ∧
    (capturedArgs cfg).lookup "sequential" = some (ArgVal.int cfg.sequential) ∧
    (capturedArgs cfg).lookup "seed" = some (ArgVal.int cfg.seed) ∧
    (capturedArgs cfg).lookup "checkpoint" = some (ArgVal.sel cfg.checkpoint) ∧
    (capturedArgs cfg).lookup "checkpoint_output_dir" =
      some (ArgVal.ostr cfg.checkpoint_output_dir) ∧
    (capturedArgs cfg).lookup "cfg" = Option.none := by
  obtain ⟨cp, evsR, eff, evsC, hr, hc, rfl⟩ := main_ok_decomp h
  refine ⟨List.mem_append_right _ (pipeline_mem_loggerInit cfg eff cp od),
    ?_, rfl, rfl, rfl, rfl, rfl, rfl, rfl, rfl, rfl, rfl, rfl, rfl, rfl⟩
  intro d f a hmem
  rcases List.mem_append.mp hmem with hmem' | hpipe
  · rcases List.mem_append.mp hmem' with hR | hC
    · have := resolverPhase_obs hr _ hR
      simp [Event.isPipeline] at this
    · have := configPhase_obs hc _ hC
      simp [Event.isPipeline] at this
  · exact pipeline_loggerInit_inv hpipe

/-- Witness for C8's amended statement on a concrete fresh run. -/
theorem C8_captured_args_witness :
    ∃ tr, Train.main
        { cfgResume with checkpoint_output_dir := Option.none } fsSteps "outdir" =
        .ok tr ∧
      Event.loggerInit "outdir" trainScriptFile
        (capturedArgs { cfgResume with checkpoint_output_dir := Option.none }) ∈ tr ∧
      (capturedArgs { cfgResume with checkpoint_output_dir := Option.none }).lookup
        "cfg" = Option.none := by
  obtain ⟨hmem, hinv, hrest⟩ :=
    C8_captured_args { cfgResume with checkpoint_output_dir := Option.none }
      fsSteps "outdir" _ rfl
  exact ⟨_, rfl, hmem, hrest.2.2.2.2.2.2.2.2.2.2.2.2⟩

/-- C9: Fresh run isolation.  When `checkpoint_output_dir` is unset (falsy),
the run succeeds, the resolver yields no checkpoint and produces no events,
the whole trace contains no filesystem access at all (no scan and no
`config.yaml` read), `agent.load` is never called, and `trainer.run()` is
invoked exactly once. -/
theorem C9_fresh_run_isolation (cfg : TonicTrainConfig) (fs : FileSystem)
    (od : String) (h : optTruthy cfg.checkpoint_output_dir = false) :
    ∃ tr, Train.main cfg fs od = .ok tr ∧
      resolverPhase cfg fs = .ok (Option.none, []) ∧
      tr.filter Event.isFs = [] ∧
      tr.filter Event.isLoad = [] ∧
      tr.countP Event.isRun = 1 := by
  have hres : resolverPhase cfg fs = .ok (Option.none, []) := by
    simp [resolverPhase, h]
  have hconf : configPhase cfg fs = .ok (effectiveOfCfg cfg, []) := by
    simp [configPhase, h]
  refine ⟨pipelineEvents cfg (effectiveOfCfg cfg) Option.none od, ?_, hres, ?_, ?_, ?_⟩
  · unfold Train.main
    rw [hres, hconf]
    rfl
  · exact pipeline_no_fs cfg (effectiveOfCfg cfg) Option.none od
  · exact pipeline_none_no_load cfg (effectiveOfCfg cfg) od
  · exact pipeline_countP_run cfg (effectiveOfCfg cfg) Option.none od

/-- Witness for C9: the spec's end-to-end scenario A — fresh run with agent
and environment supplied and selector `'last'` — never touches the
filesystem, never loads weights, and runs the trainer once, even though the
filesystem holds valid checkpoints. -/
theorem C9_fresh_run_isolation_witness :
    ∃ tr, Train.main { cfgAgentSupplied with checkpoint_output_dir := Option.none }
        fsSteps "outdir" = .ok tr ∧
      resolverPhase { cfgAgentSupplied with checkpoint_output_dir := Option.none }
        fsSteps = .ok (Option.none, []) ∧
      tr.filter Event.isFs = [] ∧
      tr.filter Event.isLoad = [] ∧
      tr.countP Event.isRun = 1 :=
  C9_fresh_run_isolation
    { cfgAgentSupplied with checkpoint_output_dir := Option.none } fsSteps "outdir" rfl

/-- C10: Implicit unconditional `config.yaml` read.  Whenever
`checkpoint_output_dir` is truthy, a missing `<dir>/config.yaml` makes the
run fail — it never reaches a successful trace — and in particular in the
opt-out cases (selector `'none'` or agent supplied, where no weights would be
loaded anyway) the run dies precisely with the file-open error; conversely,
every successful resume run's trace contains the `config.yaml` open. -/
theorem C10_config_yaml_unconditional (cfg : TonicTrainConfig)
    (fs : FileSystem) (od : String) (dir : String)
    (hdir : cfg.checkpoint_output_dir = some dir) (hne : dir ≠ "") :
    (fs.configYaml = Option.none →
      (∀ tr, Train.main cfg fs od ≠ .ok tr) ∧
      ((cfg.checkpoint = Checkpoint.none ∨ cfg.agent ≠ PyVal.none) →
        Train.main cfg fs od =
          .error (.fileNotFound (osPathJoin dir "config.yaml")))) ∧
    (∀ pc tr, fs.configYaml = some pc → Train.main cfg fs od = .ok tr →
      Event.fsOpenConfig (osPathJoin dir "config.yaml") ∈ tr) := by
  constructor
  · intro hyaml
    have hcfg : configPhase cfg fs =
        .error (.fileNotFound (osPathJoin dir "config.yaml")) := by
      simp [configPhase, hdir, optTruthy_some hne, hyaml]
    constructor
    · intro tr hok
      obtain ⟨cp, evsR, eff, evsC, hr, hc, _⟩ := main_ok_decomp hok
      rw [hcfg] at hc
      cases hc
    · intro hguard
      have hres : resolverPhase cfg fs =
          .ok (Option.none,
               [Event.logLoadingExperiment dir, Event.logNotLoadingWeights]) := by
        simp only [resolverPhase, hdir, optTruthy_some hne, if_true, Option.getD_some]
        rw [if_pos hguard]
      unfold Train.main
      rw [hres, hcfg]
  · intro pc tr hyaml hok
    obtain ⟨cp, evsR, eff, evsC, hr, hc, rfl⟩ := main_ok_decomp hok
    have hcfg : configPhase cfg fs =
        .ok (mergeFields cfg pc,
             [Event.fsOpenConfig (osPathJoin dir "config.yaml")]) := by
      simp [configPhase, hdir, optTruthy_some hne, hyaml]
    rw [hcfg] at hc
    injection hc with hc'
    injection hc' with hc1 hc2
    subst hc2
    exact List.mem_append_left _ (List.mem_append_right _ (List.mem_cons_self _ _))

/-- A resume output directory whose `config.yaml` is missing. -/
def fsNoYaml : FileSystem :=
  { checkpointsDirExists := true, checkpointsEntries := ["step_3"],
    cwdEntries := [], configYaml := Option.none }

/-- Witness for C10: a resume run that opts out of weights (selector
`'none'`) still dies on the missing `config.yaml`. -/
theorem C10_config_yaml_unconditional_witness :
    Train.main { cfgResume with checkpoint := Checkpoint.none } fsNoYaml "outdir" =
      .error (.fileNotFound "out/config.yaml") :=
  ((C10_config_yaml_unconditional { cfgResume with checkpoint := Checkpoint.none }
      fsNoYaml "outdir" "out" rfl (by decide)).1 rfl).2 (Or.inl rfl)
